import Mathlib

/-
Verification of the eventhorizon Event Management API (Express + MSSQL).

The server code (server.js and its variants) is embedded shallowly:
  - the two database tables (Events, Attendees) become lists of rows,
    together with the identity counters that generate new ids;
  - each Express route handler becomes a pure function from the request
    data and the database state to a result holding the HTTP status, the
    JSON (or file) body, the successor state, and the list of SQL
    statements that were successfully executed;
  - JavaScript truthiness of request-body fields (undefined and the empty
    string are falsy) is modelled on Option String / Option Nat;
  - the JavaScript Date constructor combined with the driver validation of
    the sql.DateTime parameter is abstracted as a parseDate argument of
    type String to Option Int: none models an unparsable date, which makes
    the driver throw, landing in the catch block of the handler.
-/

namespace EventHorizon

/-- A row of the Events table: columns id, name, date, location. -/
structure EventRow where
  id : Nat
  name : String
  date : Int
  location : String
deriving Repr, DecidableEq

/-- A row of the Attendees table: columns id, name, email, event_id. -/
structure AttendeeRow where
  id : Nat
  name : String
  email : String
  event_id : Nat
deriving Repr, DecidableEq

/-- The database state: both tables plus the identity counters that the
server relies on for generated ids. -/
structure DBState where
  events : List EventRow
  attendees : List AttendeeRow
  nextEventId : Nat
  nextAttendeeId : Nat
deriving Repr, DecidableEq

/-- JavaScript truthiness of an optional string body field, as tested by
the guards of the handlers: undefined (none) and the empty string are
falsy, every other string is truthy. -/
def truthyStr : Option String → Bool
  | none => false
  | some s => !s.isEmpty

/-- JavaScript truthiness of an optional numeric body field (eventId):
undefined and 0 are falsy. -/
def truthyNat : Option Nat → Bool
  | none => false
  | some n => n != 0

/-- The body a handler sends back: the JSON shapes that occur in the
routes, the static file sent by the SPA catch-all, and the plain text of
the ping route of one variant. -/
inductive RespBody where
  | jsonEvents (rows : List EventRow)
  | jsonAttendees (rows : List AttendeeRow)
  | jsonEvent (row : EventRow)
  | jsonAttendee (row : AttendeeRow)
  | jsonDeleted (row : EventRow)
  | jsonError (msg : String)
  | jsonEmpty
  | file (path : String)
  | text (s : String)
deriving Repr, DecidableEq

/-- Whether the response body is a JSON value (res.json) as opposed to a
static file (res.sendFile) or plain text (res.send). -/
def RespBody.isJsonBody : RespBody → Bool
  | .file _ => false
  | .text _ => false
  | _ => true

/-- The observable outcome of one request: HTTP status, body, the
database state afterwards, and the SQL statements that executed. -/
structure HandlerResult where
  status : Nat
  body : RespBody
  state : DBState
  queries : List String
deriving Repr, DecidableEq

/-- SELECT 1 FROM Events WHERE id = @id, as a Bool: the existence check
used by the PUT handler and by the attendee POST handler. -/
def existsEvent (st : DBState) (i : Nat) : Bool :=
  st.events.any (fun r => r.id == i)

/-- GET /api/events: SELECT * FROM Events, returned as is (no ORDER BY
clause appears in the query). -/
def getEventsHandler (st : DBState) : HandlerResult :=
  ⟨200, .jsonEvents st.events, st, ["SELECT * FROM Events"]⟩

/-- POST /api/events: rejects with 400 when any of name, date, location
is falsy; otherwise inserts and answers 201 with the inserted row. When
parseDate fails (Invalid Date rejected by the sql.DateTime parameter) the
statement throws and the catch block answers 500. -/
def postEventsHandler (parseDate : String → Option Int) (st : DBState)
    (name date location : Option String) : HandlerResult :=
  if !(truthyStr name) || !(truthyStr date) || !(truthyStr location) then
    ⟨400, .jsonError "Missing fields", st, []⟩
  else
    match parseDate (date.getD "") with
    | none => ⟨500, .jsonError "Failed to create event", st, []⟩
    | some t =>
        let row : EventRow := ⟨st.nextEventId, name.getD "", t, location.getD ""⟩
        ⟨201, .jsonEvent row,
          { st with events := st.events ++ [row], nextEventId := st.nextEventId + 1 },
          ["INSERT INTO Events (name, date, location) OUTPUT INSERTED.* VALUES (@name, @date, @location)"]⟩

/-- PUT /api/events/:id: the missing-fields guard runs first (400), then
the existence check (404), then the UPDATE statement overwriting all
three columns; OUTPUT INSERTED.* is sent back with the default 200. -/
def putEventsHandler (parseDate : String → Option Int) (st : DBState) (id : Nat)
    (name date location : Option String) : HandlerResult :=
  if !(truthyStr name) || !(truthyStr date) || !(truthyStr location) then
    ⟨400, .jsonError "Missing fields", st, []⟩
  else if !(existsEvent st id) then
    ⟨404, .jsonError "Event not found", st, ["SELECT 1 FROM Events WHERE id = @id"]⟩
  else
    match parseDate (date.getD "") with
    | none =>
        ⟨500, .jsonError "Failed to update event", st, ["SELECT 1 FROM Events WHERE id = @id"]⟩
    | some t =>
        let updated := st.events.map (fun r =>
          if r.id == id then
            { r with name := name.getD "", date := t, location := location.getD "" }
          else r)
        let outp := updated.filter (fun r => r.id == id)
        ⟨200,
          (match outp.head? with
           | some r => .jsonEvent r
           | none => .jsonEmpty),
          { st with events := updated },
          ["SELECT 1 FROM Events WHERE id = @id",
           "UPDATE Events SET name = @name, date = @date, location = @location OUTPUT INSERTED.* WHERE id = @id"]⟩

/-- DELETE /api/events/:id: one DELETE with OUTPUT DELETED.*; an empty
recordset means 404, otherwise 200 with the message and the deleted row. -/
def deleteEventsHandler (st : DBState) (id : Nat) : HandlerResult :=
  let deleted := st.events.filter (fun r => r.id == id)
  let st2 := { st with events := st.events.filter (fun r => !(r.id == id)) }
  match deleted.head? with
  | none =>
      ⟨404, .jsonError "Event not found", st2, ["DELETE FROM Events OUTPUT DELETED.* WHERE id = @id"]⟩
  | some r =>
      ⟨200, .jsonDeleted r, st2, ["DELETE FROM Events OUTPUT DELETED.* WHERE id = @id"]⟩

/-- GET /api/attendees: SELECT * FROM Attendees. -/
def getAttendeesHandler (st : DBState) : HandlerResult :=
  ⟨200, .jsonAttendees st.attendees, st, ["SELECT * FROM Attendees"]⟩

/-- POST /api/attendees: missing-fields guard (400), then the event
existence check (404), then the INSERT answered 201. -/
def postAttendeesHandler (st : DBState)
    (name email : Option String) (eventId : Option Nat) : HandlerResult :=
  if !(truthyStr name) || !(truthyStr email) || !(truthyNat eventId) then
    ⟨400, .jsonError "Missing required fields", st, []⟩
  else if !(existsEvent st (eventId.getD 0)) then
    ⟨404, .jsonError "Event not found", st, ["SELECT 1 FROM Events WHERE id = @eventId"]⟩
  else
    let row : AttendeeRow := ⟨st.nextAttendeeId, name.getD "", email.getD "", eventId.getD 0⟩
    ⟨201, .jsonAttendee row,
      { st with attendees := st.attendees ++ [row], nextAttendeeId := st.nextAttendeeId + 1 },
      ["SELECT 1 FROM Events WHERE id = @eventId",
       "INSERT INTO Attendees (name, email, event_id) OUTPUT INSERTED.* VALUES (@name, @email, @event_id)"]⟩

/-- GET /api/events/:id/attendees: SELECT * FROM Attendees WHERE
event_id = @eventId. -/
def getEventAttendeesHandler (st : DBState) (id : Nat) : HandlerResult :=
  ⟨200, .jsonAttendees (st.attendees.filter (fun a => a.event_id == id)), st,
    ["SELECT * FROM Attendees WHERE event_id = @eventId"]⟩

/-- The SPA catch-all, registered last: res.sendFile of the built
index.html, which Express sends with the default 200. -/
def catchAllHandler (st : DBState) : HandlerResult :=
  ⟨200, .file "public/index.html", st, []⟩

/-- Recognizer for the parametric route /api/events/:id/attendees. -/
def parseEventAttendeesPath (path : String) : Option Nat :=
  if path.startsWith "/api/events/" && path.endsWith "/attendees" then
    let mid := (path.drop 12).dropRight 10
    if mid.length > 0 && mid.all Char.isDigit then some mid.toNat! else none
  else none

/-- GET dispatch in registration order of the full variant (the backend
variant lacks the attendee routes but routes the root path the same way:
no API route matches it, so the catch-all serves the static file). -/
def routeGet (st : DBState) (path : String) : HandlerResult :=
  if path == "/api/events" then getEventsHandler st
  else if path == "/api/attendees" then getAttendeesHandler st
  else
    match parseEventAttendeesPath path with
    | some i => getEventAttendeesHandler st i
    | none => catchAllHandler st

/-- GET /api/ping of the connection-string variant: res.send of the plain
text pong, with no database connectivity information. -/
def pingHandler : Nat × RespBody := (200, .text "pong")

/-- Whether a recordset is sorted by the date column, descending. -/
def dateSortedDesc : List EventRow → Bool
  | [] => true
  | [_] => true
  | a :: b :: rest => (b.date ≤ a.date) && dateSortedDesc (b :: rest)

/-- A concrete date parser standing in for the JavaScript Date parser in
closed instances: it accepts one ISO timestamp and nothing else. -/
def sampleParseDate : String → Option Int
  | "2025-06-01T10:00:00Z" => some 1748772000000
  | _ => none

/-- A concrete one-event state used by the closed instances. -/
def st1 : DBState := ⟨[⟨1, "A", 5, "B"⟩], [], 2, 1⟩

/-- A concrete two-event state whose rows are stored in ascending date
order. -/
def st2 : DBState := ⟨[⟨1, "A", 10, "X"⟩, ⟨2, "B", 20, "Y"⟩], [], 3, 1⟩

end EventHorizon

namespace EventHorizon

/-- In a list of event rows with pairwise distinct ids, filtering for the
id of a member returns exactly that member. -/
lemma filter_id_eq_single {l : List EventRow} {r : EventRow}
    (hnd : (l.map (fun e => e.id)).Nodup) (hmem : r ∈ l) :
    l.filter (fun e => e.id == r.id) = [r] := by
  induction l with
  | nil => cases hmem
  | cons a t ih =>
    have hna : a.id ∉ t.map (fun e => e.id) := (List.nodup_cons.mp hnd).1
    have hnd2 : (t.map (fun e => e.id)).Nodup := (List.nodup_cons.mp hnd).2
    rcases List.mem_cons.mp hmem with h | h
    · subst h
      rw [List.filter_cons_of_pos (p := fun (e : EventRow) => e.id == r.id) (by simp)]
      have hnil : t.filter (fun e => e.id == r.id) = [] := by
        refine List.filter_eq_nil_iff.mpr ?_
        intro e he heq
        have : e.id = r.id := by simpa using heq
        exact hna (this ▸ List.mem_map_of_mem (fun e => e.id) he)
      rw [hnil]
    · have hne : (a.id == r.id) = false := by
        by_contra hc
        have : a.id = r.id := by
          cases hb : (a.id == r.id)
          · exact absurd hb hc
          · simpa using hb
        exact hna (this ▸ List.mem_map_of_mem (fun e => e.id) h)
      rw [List.filter_cons_of_neg (p := fun (e : EventRow) => e.id == r.id) (by simp [hne])]
      exact ih hnd2 h

/-- Claim C1, counterexample: a PUT supplying only name does not leave a
success with name overwritten and the other fields kept; the handler
rejects the request with 400 and overwrites nothing, because the
missing-fields guard demands all three fields. The stored row keeps its
old name, refuting the clause that a field present in the body
overwrites the stored value. -/
theorem C1_put_only_name_counterexample :
    (putEventsHandler sampleParseDate st1 1 (some "New") none none).status = 400 ∧
    (putEventsHandler sampleParseDate st1 1 (some "New") none none).state.events = [⟨1, "A", 5, "B"⟩] := by
  decide

/-- Claim C1, amended: PUT /api/events/:id has full-replacement
semantics, not coalesce-on-null. When name, date and location are all
present and non-empty and the id exists, the handler answers 200 and
overwrites all three columns of the target row; when any field is
omitted or empty it answers 400 and leaves the table unchanged. -/
theorem C1_put_requires_all_fields_and_overwrites (pd : String → Option Int) (st : DBState)
    (i : Nat) (n d l : String) (t : Int) (n2 d2 l2 : Option String)
    (hn : n.isEmpty = false) (hd : d.isEmpty = false) (hl : l.isEmpty = false)
    (hpd : pd d = some t) (hex : existsEvent st i = true)
    (hbad : (truthyStr n2 && truthyStr d2 && truthyStr l2) = false) :
    ((putEventsHandler pd st i (some n) (some d) (some l)).status = 200 ∧
     (putEventsHandler pd st i (some n) (some d) (some l)).state.events =
       st.events.map (fun r =>
         if r.id == i then { r with name := n, date := t, location := l } else r)) ∧
    ((putEventsHandler pd st i n2 d2 l2).status = 400 ∧
     (putEventsHandler pd st i n2 d2 l2).state = st) := by
  constructor
  · simp [putEventsHandler, truthyStr, hn, hd, hl, hex, hpd]
  · have hcond : (!(truthyStr n2) || !(truthyStr d2) || !(truthyStr l2)) = true := by
      cases h1 : truthyStr n2 <;> cases h2 : truthyStr d2 <;> cases h3 : truthyStr l2 <;>
        simp [h1, h2, h3] at hbad ⊢
    simp [putEventsHandler, hcond]

/-- Claim C1, witness: the amended theorem applied at a concrete state,
a full update of event 1 and a rejected partial update. -/
theorem C1_put_requires_all_fields_witness :
    ("New".isEmpty = false ∧ "2025-06-01T10:00:00Z".isEmpty = false ∧ "HQ".isEmpty = false ∧
      sampleParseDate "2025-06-01T10:00:00Z" = some 1748772000000 ∧
      existsEvent st1 1 = true ∧
      (truthyStr (some "") && truthyStr none && truthyStr none) = false) ∧
    (((putEventsHandler sampleParseDate st1 1 (some "New") (some "2025-06-01T10:00:00Z") (some "HQ")).status = 200 ∧
      (putEventsHandler sampleParseDate st1 1 (some "New") (some "2025-06-01T10:00:00Z") (some "HQ")).state.events =
        st1.events.map (fun r =>
          if r.id == 1 then { r with name := "New", date := 1748772000000, location := "HQ" } else r)) ∧
     ((putEventsHandler sampleParseDate st1 1 (some "") none none).status = 400 ∧
      (putEventsHandler sampleParseDate st1 1 (some "") none none).state = st1)) :=
  ⟨by decide,
   C1_put_requires_all_fields_and_overwrites sampleParseDate st1 1 "New" "2025-06-01T10:00:00Z" "HQ"
     1748772000000 (some "") none none
     (by decide) (by decide) (by decide) (by decide) (by decide) (by decide)⟩

/-- Claim C2: POST /api/events with any of name, date, location missing
or an empty string answers 400 and inserts no row: the database state is
unchanged. -/
theorem C2_post_missing_or_empty_rejected (pd : String → Option Int) (st : DBState)
    (name date location : Option String)
    (h : (truthyStr name && truthyStr date && truthyStr location) = false) :
    (postEventsHandler pd st name date location).status = 400 ∧
    (postEventsHandler pd st name date location).state = st := by
  have hcond : (!(truthyStr name) || !(truthyStr date) || !(truthyStr location)) = true := by
    cases h1 : truthyStr name <;> cases h2 : truthyStr date <;> cases h3 : truthyStr location <;>
      simp [h1, h2, h3] at h ⊢
  simp [postEventsHandler, hcond]

/-- Claim C2, witness: a POST with an empty name is rejected with 400
and leaves the concrete state untouched. -/
theorem C2_post_missing_or_empty_witness :
    (truthyStr (some "") && truthyStr (some "2025-06-01T10:00:00Z") && truthyStr (some "HQ")) = false ∧
    ((postEventsHandler sampleParseDate st1 (some "") (some "2025-06-01T10:00:00Z") (some "HQ")).status = 400 ∧
     (postEventsHandler sampleParseDate st1 (some "") (some "2025-06-01T10:00:00Z") (some "HQ")).state = st1) :=
  ⟨by decide, C2_post_missing_or_empty_rejected sampleParseDate st1 _ _ _ (by decide)⟩

/-- Claim C3, counterexample: a POST whose date is present but
unparsable is not answered 400; the insert attempt fails and the catch
block answers 500. No row is inserted. -/
theorem C3_unparsable_date_counterexample :
    ¬ ((postEventsHandler sampleParseDate st1 (some "Launch") (some "banana") (some "HQ")).status = 400) ∧
    (postEventsHandler sampleParseDate st1 (some "Launch") (some "banana") (some "HQ")).status = 500 ∧
    (postEventsHandler sampleParseDate st1 (some "Launch") (some "banana") (some "HQ")).state = st1 := by
  decide

/-- Claim C3, amended: the handler performs no date validation of its
own; a present but unparsable date reaches the insert, whose failure is
answered 500 (the generic create-failure response), not 400, and no row
is inserted. The only 400 response of this route is the missing-fields
case. -/
theorem C3_unparsable_date_gives_500 (pd : String → Option Int) (st : DBState)
    (n d l : String)
    (hn : n.isEmpty = false) (hd : d.isEmpty = false) (hl : l.isEmpty = false)
    (hpd : pd d = none) :
    (postEventsHandler pd st (some n) (some d) (some l)).status = 500 ∧
    (postEventsHandler pd st (some n) (some d) (some l)).state = st := by
  simp [postEventsHandler, truthyStr, hn, hd, hl, hpd]

/-- Claim C3, witness: the amended theorem at the concrete unparsable
date banana. -/
theorem C3_unparsable_date_witness :
    ("Launch".isEmpty = false ∧ "banana".isEmpty = false ∧ "HQ".isEmpty = false ∧
      sampleParseDate "banana" = none) ∧
    ((postEventsHandler sampleParseDate st1 (some "Launch") (some "banana") (some "HQ")).status = 500 ∧
     (postEventsHandler sampleParseDate st1 (some "Launch") (some "banana") (some "HQ")).state = st1) :=
  ⟨by decide,
   C3_unparsable_date_gives_500 sampleParseDate st1 "Launch" "banana" "HQ"
     (by decide) (by decide) (by decide) (by decide)⟩

/-- Claim C4, counterexample: the SELECT carries no ORDER BY clause, so
the recordset comes back in stored order; a state whose two rows are
stored in ascending date order is returned exactly so, which is not
date-descending. -/
theorem C4_order_counterexample :
    (getEventsHandler st2).body = .jsonEvents [⟨1, "A", 10, "X"⟩, ⟨2, "B", 20, "Y"⟩] ∧
    dateSortedDesc [⟨1, "A", 10, "X"⟩, ⟨2, "B", 20, "Y"⟩] = false := by
  decide

/-- Claim C4, amended: GET /api/events answers 200 with all stored rows
exactly as the table holds them; no ordering (in particular no
date-descending ordering) is requested or guaranteed. -/
theorem C4_get_events_returns_all_rows (st : DBState) :
    (getEventsHandler st).status = 200 ∧
    (getEventsHandler st).body = .jsonEvents st.events := ⟨rfl, rfl⟩

/-- Claim C5: with distinct ids, deleting an existing id twice gives 200
with the deleted row first and 404 second, and a DELETE for an id
matching no row answers 404. -/
theorem C5_delete_twice (st : DBState) (r : EventRow) (j : Nat)
    (hnd : (st.events.map (fun e => e.id)).Nodup)
    (hmem : r ∈ st.events)
    (hj : existsEvent st j = false) :
    (deleteEventsHandler st r.id).status = 200 ∧
    (deleteEventsHandler st r.id).body = .jsonDeleted r ∧
    (deleteEventsHandler (deleteEventsHandler st r.id).state r.id).status = 404 ∧
    (deleteEventsHandler st j).status = 404 := by
  have h1 : st.events.filter (fun e => e.id == r.id) = [r] := filter_id_eq_single hnd hmem
  have h2 : (st.events.filter (fun e => !(e.id == r.id))).filter (fun e => e.id == r.id) = [] := by
    refine List.filter_eq_nil_iff.mpr ?_
    intro e he heq
    have hm := (List.mem_filter.mp he).2
    simp at hm heq
    exact hm heq
  have h3 : st.events.filter (fun e => e.id == j) = [] := by
    refine List.filter_eq_nil_iff.mpr ?_
    intro e he heq
    exact List.any_eq_false.mp hj e he heq
  refine ⟨?_, ?_, ?_, ?_⟩
  · simp [deleteEventsHandler, h1]
  · simp [deleteEventsHandler, h1]
  · simp [deleteEventsHandler, h1, h2]
  · simp [deleteEventsHandler, h3]

/-- Claim C5, witness: deleting event 1 of the concrete state twice and
deleting the absent id 99. -/
theorem C5_delete_twice_witness :
    ((st1.events.map (fun e => e.id)).Nodup ∧ (⟨1, "A", 5, "B"⟩ : EventRow) ∈ st1.events ∧
      existsEvent st1 99 = false) ∧
    ((deleteEventsHandler st1 1).status = 200 ∧
     (deleteEventsHandler st1 1).body = .jsonDeleted ⟨1, "A", 5, "B"⟩ ∧
     (deleteEventsHandler (deleteEventsHandler st1 1).state 1).status = 404 ∧
     (deleteEventsHandler st1 99).status = 404) :=
  ⟨by decide, C5_delete_twice st1 ⟨1, "A", 5, "B"⟩ 99 (by decide) (by decide) (by decide)⟩

/-- Claim C6, counterexample: a PUT whose id matches no stored event is
not always answered 404: when the body is invalid (here an empty name)
the missing-fields guard fires first and the handler answers 400. -/
theorem C6_invalid_body_counterexample :
    existsEvent st1 99 = false ∧
    (putEventsHandler sampleParseDate st1 99 (some "") (some "2025-06-01T10:00:00Z") (some "HQ")).status = 400 ∧
    ¬ ((putEventsHandler sampleParseDate st1 99 (some "") (some "2025-06-01T10:00:00Z") (some "HQ")).status = 404) := by
  decide

/-- Claim C6, amended: for a PUT whose name, date and location are all
present and non-empty and whose id matches no stored event, the handler
runs exactly the existence check, answers 404, and leaves the table
unchanged. -/
theorem C6_put_absent_id_404 (pd : String → Option Int) (st : DBState) (i : Nat)
    (n d l : String)
    (hn : n.isEmpty = false) (hd : d.isEmpty = false) (hl : l.isEmpty = false)
    (hex : existsEvent st i = false) :
    (putEventsHandler pd st i (some n) (some d) (some l)).status = 404 ∧
    (putEventsHandler pd st i (some n) (some d) (some l)).state = st ∧
    (putEventsHandler pd st i (some n) (some d) (some l)).queries =
      ["SELECT 1 FROM Events WHERE id = @id"] := by
  simp [putEventsHandler, truthyStr, hn, hd, hl, hex]

/-- Claim C6, witness: a valid-body PUT at the absent id 99 of the
concrete state. -/
theorem C6_put_absent_id_witness :
    ("X".isEmpty = false ∧ "2025-06-01T10:00:00Z".isEmpty = false ∧ "HQ".isEmpty = false ∧
      existsEvent st1 99 = false) ∧
    ((putEventsHandler sampleParseDate st1 99 (some "X") (some "2025-06-01T10:00:00Z") (some "HQ")).status = 404 ∧
     (putEventsHandler sampleParseDate st1 99 (some "X") (some "2025-06-01T10:00:00Z") (some "HQ")).state = st1 ∧
     (putEventsHandler sampleParseDate st1 99 (some "X") (some "2025-06-01T10:00:00Z") (some "HQ")).queries =
       ["SELECT 1 FROM Events WHERE id = @id"]) :=
  ⟨by decide,
   C6_put_absent_id_404 sampleParseDate st1 99 "X" "2025-06-01T10:00:00Z" "HQ"
     (by decide) (by decide) (by decide) (by decide)⟩

/-- Claim C7: POST /api/attendees with name and email present but an
eventId resolving to no stored event answers 404 and inserts no attendee
row; with any of the three fields absent it answers 400 and inserts
nothing. -/
theorem C7_post_attendee_checks (st : DBState) (n e : String) (k : Nat)
    (n2 e2 : Option String) (k2 : Option Nat)
    (hn : n.isEmpty = false) (he : e.isEmpty = false) (hk : k ≠ 0)
    (hex : existsEvent st k = false)
    (habs : n2 = none ∨ e2 = none ∨ k2 = none) :
    ((postAttendeesHandler st (some n) (some e) (some k)).status = 404 ∧
     (postAttendeesHandler st (some n) (some e) (some k)).state = st) ∧
    ((postAttendeesHandler st n2 e2 k2).status = 400 ∧
     (postAttendeesHandler st n2 e2 k2).state = st) := by
  constructor
  · simp [postAttendeesHandler, truthyStr, truthyNat, bne_iff_ne, hn, he, hk, hex]
  · rcases habs with h | h | h <;> subst h <;>
      simp [postAttendeesHandler, truthyStr, truthyNat]

/-- Claim C7, witness: registering Bob for the absent event 99 gives
404, and a registration without a name gives 400. -/
theorem C7_post_attendee_witness :
    ("Bob".isEmpty = false ∧ "bob-at-example".isEmpty = false ∧ (99 : Nat) ≠ 0 ∧
      existsEvent st1 99 = false ∧
      ((none : Option String) = none ∨ (some "bob-at-example" : Option String) = none ∨
        (some 1 : Option Nat) = none)) ∧
    (((postAttendeesHandler st1 (some "Bob") (some "bob-at-example") (some 99)).status = 404 ∧
      (postAttendeesHandler st1 (some "Bob") (some "bob-at-example") (some 99)).state = st1) ∧
     ((postAttendeesHandler st1 none (some "bob-at-example") (some 1)).status = 400 ∧
      (postAttendeesHandler st1 none (some "bob-at-example") (some 1)).state = st1)) :=
  ⟨by decide,
   C7_post_attendee_checks st1 "Bob" "bob-at-example" 99 none (some "bob-at-example") (some 1)
     (by decide) (by decide) (by decide) (by decide) (Or.inl rfl)⟩

/-- Claim C8: DELETE /api/events/:id touches only the Events table: the
Attendees table is unchanged (rows referencing the deleted event remain,
so orphaning is possible), and the Events table loses exactly the rows
matching the id. -/
theorem C8_delete_event_frame (st : DBState) (i : Nat) :
    (deleteEventsHandler st i).state.attendees = st.attendees ∧
    (deleteEventsHandler st i).state.events = st.events.filter (fun r => !(r.id == i)) := by
  unfold deleteEventsHandler
  cases h : (st.events.filter (fun r => r.id == i)).head? <;> simp [h]

/-- Claim C9, counterexample: GET of the root path is answered by the
SPA catch-all, which sends the static index.html file with 200; the body
is not a JSON payload at all, so it carries no database-connectivity
flag. -/
theorem C9_root_counterexample :
    (routeGet st1 "/").status = 200 ∧
    (routeGet st1 "/").body = .file "public/index.html" ∧
    ((routeGet st1 "/").body).isJsonBody = false := by
  decide

/-- Claim C9, amended: in every database state, a GET of the root path
falls through every API route to the catch-all and answers 200 with the
static index.html file, running no query; the only health-like route of
any variant, GET /api/ping, answers the plain text pong, also without a
database-connectivity flag. -/
theorem C9_root_serves_spa_file (st : DBState) :
    routeGet st "/" = ⟨200, .file "public/index.html", st, []⟩ ∧
    pingHandler = (200, .text "pong") := by
  refine ⟨?_, rfl⟩
  have h1 : ("/" == "/api/events") = false := by decide
  have h2 : ("/" == "/api/attendees") = false := by decide
  have h3 : parseEventAttendeesPath "/" = none := by decide
  simp [routeGet, h1, h2, h3, catchAllHandler]

/-- Claim C10: the missing-fields guard of PUT /api/events/:id runs
before the existence check, so an invalid body is answered 400 for every
id, including ids matching no stored event, with the state unchanged and
no SQL statement executed. -/
theorem C10_put_validates_before_existence (pd : String → Option Int) (st : DBState) (i : Nat)
    (n d l : Option String)
    (h : (truthyStr n && truthyStr d && truthyStr l) = false) :
    (putEventsHandler pd st i n d l).status = 400 ∧
    (putEventsHandler pd st i n d l).state = st ∧
    (putEventsHandler pd st i n d l).queries = [] := by
  have hcond : (!(truthyStr n) || !(truthyStr d) || !(truthyStr l)) = true := by
    cases h1 : truthyStr n <;> cases h2 : truthyStr d <;> cases h3 : truthyStr l <;>
      simp [h1, h2, h3] at h ⊢
  simp [putEventsHandler, hcond]

/-- Claim C10, witness: a PUT without a name at the absent id 99 is
answered 400, not 404, and no statement runs. -/
theorem C10_put_validates_witness :
    ((truthyStr none && truthyStr (some "2025-06-01T10:00:00Z") && truthyStr (some "HQ")) = false ∧
      existsEvent st1 99 = false) ∧
    ((putEventsHandler sampleParseDate st1 99 none (some "2025-06-01T10:00:00Z") (some "HQ")).status = 400 ∧
     (putEventsHandler sampleParseDate st1 99 none (some "2025-06-01T10:00:00Z") (some "HQ")).state = st1 ∧
     (putEventsHandler sampleParseDate st1 99 none (some "2025-06-01T10:00:00Z") (some "HQ")).queries = []) :=
  ⟨by decide, C10_put_validates_before_existence sampleParseDate st1 99 _ _ _ (by decide)⟩

end EventHorizon
